import Mathlib

/-!
Shallow embedding of `src/validate-snapshot.py`, a one-shot consistency
checker for Konflux release snapshots.  External command invocations
(`oc get`, `podman create/cp/rm`) are modelled by an oracle `World`
describing each command's outcome, and every run additionally returns the
list of external commands it issued, in order.  Python exceptions are
modelled by the `PyError` type; `subprocess.run(..., check=True)` raising
`CalledProcessError` on a non-zero exit becomes an `Except` error carrying
the failing command.  Python `str` is modelled by Lean `String`, with the
two library operations the script uses (`in` and `split("@")`) translated
to executable functions on `List Char`.
-/

namespace ValidateSnapshot

/-- `charsBeginWith needle hay` : does `hay` start with `needle`? -/
def charsBeginWith : List Char → List Char → Bool
  | [], _ => true
  | _ :: _, [] => false
  | a :: as, b :: bs => a == b && charsBeginWith as bs

/-- `charsContain hay needle` : does `needle` occur as a contiguous substring
of `hay`?  This is Python's `needle in hay` on strings. -/
def charsContain : List Char → List Char → Bool
  | [], needle => charsBeginWith needle []
  | c :: t, needle => charsBeginWith needle (c :: t) || charsContain t needle

/-- Python's `needle in hay` for strings. -/
def pyIn (needle hay : String) : Bool :=
  charsContain hay.toList needle.toList

/-- Python's `s.split("@")` (single-character separator): splits on every
occurrence of `'@'`, keeping empty pieces, and yields `[s]` when no `'@'`
occurs. -/
def pySplitAt : List Char → List (List Char)
  | [] => [[]]
  | c :: rest =>
    if c == '@' then [] :: pySplitAt rest
    else
      match pySplitAt rest with
      | [] => [[c]]
      | s :: ss => (c :: s) :: ss

/-- Line 38 of the script: `sha = image.split("@")[1]`.  Returns `none`
exactly when Python would raise `IndexError` (no `'@'` in the image). -/
def shaOfImage (image : String) : Option String :=
  ((pySplitAt image.toList).get? 1).map List.asString

/-- An external command issued by the script.  The destination temporary
file of a `podman cp` is an ephemeral path chosen by `tempfile`; it is
elided, only the source inside the container is recorded. -/
inductive Cmd where
  | ocGet (ns snapshot : String)
  | podmanCreate (image : String)
  | podmanCp (src : String)
  | podmanRm (containerId : String)
deriving DecidableEq, Repr

/-- The parsed JSON of the snapshot resource: `spec.components[]`, each with
`name` and `containerImage`. -/
structure Snapshot where
  components : List (String × String)
deriving DecidableEq, Repr

/-- Oracle describing the outcome of each external command the script may
run: `.error ()` means the command exits non-zero (Python raises
`CalledProcessError`), `.ok` carries the command's output. -/
structure World where
  ocResult : Except Unit Snapshot
  createResult : Except Unit String
  cpCsvResult : Except Unit String
  cpCmResult : Except Unit String
  rmOk : Bool
deriving Repr

/-- The Python exceptions the script can raise. -/
inductive PyError where
  | valueError (msg : String)
  | calledProcessError (cmd : Cmd)
  | keyError (key : String)
  | indexError
deriving DecidableEq, Repr

/-- `detect_stream` (lines 17-24): `"ystream" in name` is tested first,
then `"zstream" in name`; otherwise `ValueError`. -/
def detect_stream (snapshot_name : String) : Except PyError String :=
  if pyIn "ystream" snapshot_name then .ok "ystream"
  else if pyIn "zstream" snapshot_name then .ok "zstream"
  else .error (.valueError ("Cannot detect stream from snapshot name: " ++ snapshot_name))

/-- The component loop of `get_snapshot_components` (lines 35-39): builds
the name-to-sha dict entries in order; an image without `'@'` raises
`IndexError` at the first offending component. -/
def buildComponents : List (String × String) → Except PyError (List (String × String))
  | [] => .ok []
  | (name, image) :: rest =>
    match shaOfImage image with
    | none => .error .indexError
    | some sha =>
      match buildComponents rest with
      | .error e => .error e
      | .ok comps => .ok ((name, sha) :: comps)

/-- Python dict lookup on the association list built by `buildComponents`:
a later binding for the same key overwrites an earlier one. -/
def dictGet : List (String × String) → String → Option String
  | [], _ => none
  | (k, v) :: rest, key =>
    match dictGet rest key with
    | some v' => some v'
    | none => if k == key then some v else none

/-- `get_snapshot_components` (lines 27-41): runs `oc get` first (line 30),
then detects the stream (line 33), then builds the component dict. -/
def get_snapshot_components (w : World) (snapshot_name ns : String) :
    Except PyError (List (String × String) × String) × List Cmd :=
  match w.ocResult with
  | .error _ =>
    (.error (.calledProcessError (Cmd.ocGet ns snapshot_name)), [Cmd.ocGet ns snapshot_name])
  | .ok snap =>
    match detect_stream snapshot_name with
    | .error e => (.error e, [Cmd.ocGet ns snapshot_name])
    | .ok stream =>
      match buildComponents snap.components with
      | .error e => (.error e, [Cmd.ocGet ns snapshot_name])
      | .ok comps => (.ok (comps, stream), [Cmd.ocGet ns snapshot_name])

/-- A character matched by the regex class `[a-f0-9]`. -/
def isShaChar (c : Char) : Bool :=
  ('a' ≤ c && c ≤ 'f') || ('0' ≤ c && c ≤ '9')

/-- Match `(sha256:[a-f0-9]+)` at the start of `s`: the literal `sha256:`
followed by a maximal (greedy `+`) non-empty run of hex characters; the
returned characters are the capture group. -/
def matchShaGroup (s : List Char) : Option (List Char) :=
  if charsBeginWith "sha256:".toList s then
    let run := (s.drop 7).takeWhile isShaChar
    if run.isEmpty then none else some ("sha256:".toList ++ run)
  else none

/-- Match `@(sha256:[a-f0-9]+)` at the start of `s`. -/
def matchAtSign : List Char → Option (List Char)
  | '@' :: rest => matchShaGroup rest
  | _ => none

/-- Match `.*@(sha256:[a-f0-9]+)` at the start of `s`.  `.` does not match
a newline, and `.*` is greedy: of all positions reachable without crossing
a newline where `@(sha256:[a-f0-9]+)` matches, the rightmost one wins. -/
def dotStarAtSha : List Char → Option (List Char)
  | [] => none
  | c :: rest =>
    if c == '\n' then none
    else
      match dotStarAtSha rest with
      | some r => some r
      | none => matchAtSign (c :: rest)

/-- The literal part of the operator regex (line 86), dots escaped. -/
def operatorLit : List Char :=
  "registry.redhat.io/bpfman/bpfman-rhel9-operator@".toList

/-- Match the operator pattern
`registry\.redhat\.io/bpfman/bpfman-rhel9-operator@(sha256:[a-f0-9]+)` at
the start of `s`. -/
def matchOperatorAt (s : List Char) : Option (List Char) :=
  if charsBeginWith operatorLit s then matchShaGroup (s.drop operatorLit.length)
  else none

/-- Match `lit` then `.*@(sha256:[a-f0-9]+)` at the start of `s`; this is
the shape of the agent (line 92) and daemon (line 95) patterns. -/
def matchLitDotStar (lit : List Char) (s : List Char) : Option (List Char) :=
  if charsBeginWith lit s then dotStarAtSha (s.drop lit.length)
  else none

/-- `re.search`: try the anchored matcher `f` at every position from left
to right and return the first (leftmost) match's capture group. -/
def reSearch (f : List Char → Option (List Char)) : List Char → Option (List Char)
  | [] => f []
  | c :: rest =>
    match f (c :: rest) with
    | some r => some r
    | none => reSearch f rest

/-- Line 85-89: `group(1)` of the operator pattern, or `None`. -/
def searchOperator (content : String) : Option String :=
  (reSearch matchOperatorAt content.toList).map List.asString

/-- Line 92-93: `group(1)` of `bpfman\.agent\.image:.*@(sha256:[a-f0-9]+)`,
or `None`. -/
def searchAgent (content : String) : Option String :=
  (reSearch (matchLitDotStar "bpfman.agent.image:".toList) content.toList).map List.asString

/-- Line 95-96: `group(1)` of `bpfman\.image:.*@(sha256:[a-f0-9]+)`, or
`None`. -/
def searchDaemon (content : String) : Option String :=
  (reSearch (matchLitDotStar "bpfman.image:".toList) content.toList).map List.asString

/-- The dict returned by `extract_bundle_refs` (line 98). -/
structure BundleRefs where
  operator : Option String
  agent : Option String
  daemon : Option String
deriving DecidableEq, Repr

/-- Lines 84-98: the three independent regex extractions from the two
manifest texts; an unmatched pattern yields `none` for that field. -/
def parseBundleRefs (csv_content cm_content : String) : BundleRefs :=
  { operator := searchOperator csv_content
    agent := searchAgent cm_content
    daemon := searchDaemon cm_content }

/-- Line 46: the fully qualified bundle image reference. -/
def bundleImage (bundle_sha stream : String) : String :=
  "quay.io/redhat-user-workloads/ocp-bpfman-tenant/bpfman-operator-bundle-"
    ++ stream ++ "@" ++ bundle_sha

/-- `extract_bundle_refs` (lines 44-98): `podman create`, then inside
`try` the two `podman cp` extractions, then in `finally` the
`podman rm` of the container — run on every exit path of the `try` body.
If `podman rm` itself fails, its `CalledProcessError` replaces the body's
outcome (Python `finally` semantics). -/
def extract_bundle_refs (w : World) (bundle_sha stream : String) :
    Except PyError BundleRefs × List Cmd :=
  let img := bundleImage bundle_sha stream
  match w.createResult with
  | .error _ => (.error (.calledProcessError (Cmd.podmanCreate img)), [Cmd.podmanCreate img])
  | .ok cid =>
    let csvSrc := cid ++ ":/manifests/bpfman-operator.clusterserviceversion.yaml"
    let cmSrc := cid ++ ":/manifests/bpfman-config_v1_configmap.yaml"
    let body : Except PyError (String × String) × List Cmd :=
      match w.cpCsvResult with
      | .error _ => (.error (.calledProcessError (Cmd.podmanCp csvSrc)), [Cmd.podmanCp csvSrc])
      | .ok csv =>
        match w.cpCmResult with
        | .error _ =>
          (.error (.calledProcessError (Cmd.podmanCp cmSrc)),
           [Cmd.podmanCp csvSrc, Cmd.podmanCp cmSrc])
        | .ok cm => (.ok (csv, cm), [Cmd.podmanCp csvSrc, Cmd.podmanCp cmSrc])
    let tr := Cmd.podmanCreate img :: body.2 ++ [Cmd.podmanRm cid]
    if w.rmOk then
      match body.1 with
      | .error e => (.error e, tr)
      | .ok (csv, cm) => (.ok (parseBundleRefs csv cm), tr)
    else (.error (.calledProcessError (Cmd.podmanRm cid)), tr)

/-- What the comparison block prints and returns: for each role whether
the "matches" line (`true`) or the "MISMATCH" line (`false`) is printed,
and the return value of `validate_snapshot`. -/
structure Report where
  operatorMatch : Bool
  agentMatch : Bool
  daemonMatch : Bool
  exitCode : Nat
deriving DecidableEq, Repr

/-- Lines 126-160: the three comparisons.  Each role compares the
extracted reference (`Option`, `none` for an unmatched pattern, i.e.
Python `None`) against the snapshot's digest; `valid` stays `true` only
if all three agree, and the function returns `0` when valid, `1`
otherwise. -/
def compareRefs (refs : BundleRefs) (opSha agSha dmSha : String) : Report :=
  let opOk := refs.operator == some opSha
  let agOk := refs.agent == some agSha
  let dmOk := refs.daemon == some dmSha
  { operatorMatch := opOk
    agentMatch := agOk
    daemonMatch := dmOk
    exitCode := if opOk && agOk && dmOk then 0 else 1 }

/-- `validate_snapshot` (lines 101-160): fetch the snapshot components,
look up the four expected component keys (a missing key raises `KeyError`,
in the order the script reads them, lines 109-112), extract the bundle
references, and compare. -/
def validate_snapshot (w : World) (snapshot_name : String)
    (ns : String := "ocp-bpfman-tenant") : Except PyError Report × List Cmd :=
  match get_snapshot_components w snapshot_name ns with
  | (.error e, tr) => (.error e, tr)
  | (.ok (components, stream), tr) =>
    match dictGet components ("bpfman-operator-" ++ stream) with
    | none => (.error (.keyError ("bpfman-operator-" ++ stream)), tr)
    | some opSha =>
      match dictGet components ("bpfman-agent-" ++ stream) with
      | none => (.error (.keyError ("bpfman-agent-" ++ stream)), tr)
      | some agSha =>
        match dictGet components ("bpfman-daemon-" ++ stream) with
        | none => (.error (.keyError ("bpfman-daemon-" ++ stream)), tr)
        | some dmSha =>
          match dictGet components ("bpfman-operator-bundle-" ++ stream) with
          | none => (.error (.keyError ("bpfman-operator-bundle-" ++ stream)), tr)
          | some bundleSha =>
            match extract_bundle_refs w bundleSha stream with
            | (.error e, tr2) => (.error e, tr ++ tr2)
            | (.ok refs, tr2) => (.ok (compareRefs refs opSha agSha dmSha), tr ++ tr2)

/-- `main` (lines 163-184): the process exit code — the return value of
`validate_snapshot` on success, `2` on `CalledProcessError` or any other
exception — together with the commands run. -/
def main (w : World) (snapshot : String) (ns : String := "ocp-bpfman-tenant") :
    Nat × List Cmd :=
  match validate_snapshot w snapshot ns with
  | (.ok r, tr) => (r.exitCode, tr)
  | (.error _, tr) => (2, tr)

/-- A self-consistent sample snapshot used to exercise the pipeline in
closed statements: the manifests below carry exactly the digests the
snapshot declares. -/
def snapSample : Snapshot :=
  ⟨[("bpfman-operator-ystream", "q/op@sha256:111"),
    ("bpfman-agent-ystream", "q/ag@sha256:222"),
    ("bpfman-daemon-ystream", "q/dm@sha256:333"),
    ("bpfman-operator-bundle-ystream", "q/bu@sha256:999")]⟩

/-- A sample CSV manifest text naming the operator digest. -/
def csvSample : String :=
  "image: registry.redhat.io/bpfman/bpfman-rhel9-operator@sha256:111\n"

/-- A sample ConfigMap manifest text naming the agent and daemon digests. -/
def cmSample : String :=
  "  bpfman.agent.image: q/a@sha256:222\n  bpfman.image: q/d@sha256:333\n"

/-- A world in which every external command succeeds and the manifests
agree with the snapshot. -/
def wSample : World := ⟨.ok snapSample, .ok "cid1", .ok csvSample, .ok cmSample, true⟩

/-- A world whose snapshot carries a component image without `'@'`. -/
def wNoAt : World :=
  ⟨.ok ⟨[("bpfman-operator-ystream", "no-digest-here")]⟩,
   .ok "cid1", .ok csvSample, .ok cmSample, true⟩

/-- A world whose snapshot lacks the agent/daemon/bundle component keys. -/
def wMissingKey : World :=
  ⟨.ok ⟨[("bpfman-operator-ystream", "q/op@sha256:111")]⟩,
   .ok "cid1", .ok csvSample, .ok cmSample, true⟩

/-- The full command trace of a successful run of `wSample`. -/
def trSample : List Cmd :=
  [Cmd.ocGet "ns" "snap-ystream-1",
   Cmd.podmanCreate
     "quay.io/redhat-user-workloads/ocp-bpfman-tenant/bpfman-operator-bundle-ystream@sha256:999",
   Cmd.podmanCp "cid1:/manifests/bpfman-operator.clusterserviceversion.yaml",
   Cmd.podmanCp "cid1:/manifests/bpfman-config_v1_configmap.yaml",
   Cmd.podmanRm "cid1"]

theorem toList_append (s t : String) : (s ++ t).toList = s.toList ++ t.toList := by
  cases s
  cases t
  rfl

theorem pySplitAt_ne_nil (l : List Char) : pySplitAt l ≠ [] := by
  induction l with
  | nil => simp [pySplitAt]
  | cons c rest ih =>
    simp only [pySplitAt]
    split
    · simp
    · cases h : pySplitAt rest with
      | nil => exact absurd h ih
      | cons s ss => simp

theorem pySplitAt_no_at {l : List Char} (h : '@' ∉ l) : pySplitAt l = [l] := by
  induction l with
  | nil => rfl
  | cons c rest ih =>
    have hc : c ≠ '@' := fun hc => h (hc ▸ List.mem_cons_self c rest)
    have hr : '@' ∉ rest := fun hr => h (List.mem_cons_of_mem c hr)
    simp only [pySplitAt, ih hr]
    simp [hc]

theorem pySplitAt_append {l : List Char} (r : List Char) (h : '@' ∉ l) :
    pySplitAt (l ++ '@' :: r) = l :: pySplitAt r := by
  induction l with
  | nil => simp [pySplitAt]
  | cons c rest ih =>
    have hc : c ≠ '@' := fun hc => h (hc ▸ List.mem_cons_self c rest)
    have hr : '@' ∉ rest := fun hr => h (List.mem_cons_of_mem c hr)
    simp only [List.cons_append, pySplitAt, List.append_eq]
    rw [ih hr]
    simp [hc]

theorem isShaChar_at_false : isShaChar '@' = false := by decide

/-- C6: for every snapshot name containing `"ystream"` and not `"zstream"`
the stream detector returns `"ystream"`; for every name containing
`"zstream"` and not `"ystream"` it returns `"zstream"`; for every name
containing neither it raises `ValueError` with the script's message. -/
theorem detect_stream_cases (name : String) :
    (pyIn "ystream" name = true ∧ pyIn "zstream" name = false →
      detect_stream name = .ok "ystream") ∧
    (pyIn "zstream" name = true ∧ pyIn "ystream" name = false →
      detect_stream name = .ok "zstream") ∧
    (pyIn "ystream" name = false ∧ pyIn "zstream" name = false →
      detect_stream name =
        .error (.valueError ("Cannot detect stream from snapshot name: " ++ name))) := by
  refine ⟨fun h => ?_, fun h => ?_, fun h => ?_⟩ <;>
    simp [detect_stream, h.1, h.2]

/-- Witness for C6 at the concrete name `"bpfman-ystream-1"`. -/
theorem detect_stream_cases_witness :
    (pyIn "ystream" "bpfman-ystream-1" = true ∧ pyIn "zstream" "bpfman-ystream-1" = false) ∧
    detect_stream "bpfman-ystream-1" = .ok "ystream" :=
  ⟨⟨by decide, by decide⟩,
    (detect_stream_cases "bpfman-ystream-1").1 ⟨by decide, by decide⟩⟩

/-- C9: for a name containing both `"ystream"` and `"zstream"`, the
`ystream` branch is tested first and wins. -/
theorem detect_stream_both_markers (name : String) (h1 : pyIn "ystream" name = true)
    (_h2 : pyIn "zstream" name = true) : detect_stream name = .ok "ystream" := by
  simp [detect_stream, h1]

/-- Witness for C9 at the concrete name `"a-ystream-zstream"`. -/
theorem detect_stream_both_markers_witness :
    (pyIn "ystream" "a-ystream-zstream" = true ∧ pyIn "zstream" "a-ystream-zstream" = true) ∧
    detect_stream "a-ystream-zstream" = .ok "ystream" :=
  ⟨⟨by decide, by decide⟩, detect_stream_both_markers _ (by decide) (by decide)⟩

/-- C8: for a component image reference of the form `repo@sha256:<hex>`
(the repository part contains no `@` and the digest is `sha256:` followed
by hex characters), the digest derived by line 38, `image.split("@")[1]`,
is exactly the substring after the first `@`. -/
theorem shaOfImage_eq_after_at (repo hex : String) (h1 : '@' ∉ repo.toList)
    (h2 : ∀ c ∈ hex.toList, isShaChar c = true) :
    shaOfImage (repo ++ "@" ++ ("sha256:" ++ hex)) = some ("sha256:" ++ hex) := by
  have hsha : '@' ∉ ("sha256:" ++ hex).toList := by
    rw [toList_append]
    intro hmem
    rcases List.mem_append.mp hmem with h | h
    · revert h
      decide
    · have := h2 _ h
      rw [isShaChar_at_false] at this
      exact Bool.false_ne_true this
  have hlist : (repo ++ "@" ++ ("sha256:" ++ hex)).toList
      = repo.toList ++ '@' :: ("sha256:" ++ hex).toList := by
    rw [toList_append, toList_append]
    simp
  rw [shaOfImage, hlist, pySplitAt_append _ h1, pySplitAt_no_at hsha]
  show some ((("sha256:" ++ hex).toList).asString) = some ("sha256:" ++ hex)
  rw [String.asString_toList]

/-- Witness for C8 at `repo = "quay.io/x/y"`, `hex = "0abc"`. -/
theorem shaOfImage_eq_after_at_witness :
    ('@' ∉ ("quay.io/x/y" : String).toList ∧
      ∀ c ∈ ("0abc" : String).toList, isShaChar c = true) ∧
    shaOfImage ("quay.io/x/y" ++ "@" ++ ("sha256:" ++ "0abc")) = some ("sha256:" ++ "0abc") :=
  ⟨⟨by decide, by decide⟩,
    shaOfImage_eq_after_at "quay.io/x/y" "0abc" (by decide) (by decide)⟩

/-- C1: the comparison block returns `0` exactly when all three extracted
bundle digests equal the snapshot digests of the corresponding components,
and `1` in every other case. -/
theorem compareRefs_exit_iff (refs : BundleRefs) (opSha agSha dmSha : String) :
    (compareRefs refs opSha agSha dmSha).exitCode =
      if refs.operator = some opSha ∧ refs.agent = some agSha ∧ refs.daemon = some dmSha
      then 0 else 1 := by
  simp only [compareRefs]
  by_cases h1 : refs.operator = some opSha <;>
    by_cases h2 : refs.agent = some agSha <;>
      by_cases h3 : refs.daemon = some dmSha <;>
        simp [h1, h2, h3]

/-- C2: if exactly one of the three digests differs, the result is `1` and
the mismatch line is printed only for that role, the other two roles being
reported as matches. -/
theorem compareRefs_single_mismatch (refs : BundleRefs) (opSha agSha dmSha : String) :
    (refs.operator ≠ some opSha ∧ refs.agent = some agSha ∧ refs.daemon = some dmSha →
      (compareRefs refs opSha agSha dmSha).exitCode = 1 ∧
      (compareRefs refs opSha agSha dmSha).operatorMatch = false ∧
      (compareRefs refs opSha agSha dmSha).agentMatch = true ∧
      (compareRefs refs opSha agSha dmSha).daemonMatch = true) ∧
    (refs.operator = some opSha ∧ refs.agent ≠ some agSha ∧ refs.daemon = some dmSha →
      (compareRefs refs opSha agSha dmSha).exitCode = 1 ∧
      (compareRefs refs opSha agSha dmSha).operatorMatch = true ∧
      (compareRefs refs opSha agSha dmSha).agentMatch = false ∧
      (compareRefs refs opSha agSha dmSha).daemonMatch = true) ∧
    (refs.operator = some opSha ∧ refs.agent = some agSha ∧ refs.daemon ≠ some dmSha →
      (compareRefs refs opSha agSha dmSha).exitCode = 1 ∧
      (compareRefs refs opSha agSha dmSha).operatorMatch = true ∧
      (compareRefs refs opSha agSha dmSha).agentMatch = true ∧
      (compareRefs refs opSha agSha dmSha).daemonMatch = false) := by
  refine ⟨fun h => ?_, fun h => ?_, fun h => ?_⟩ <;>
    simp [compareRefs, h.1, h.2.1, h.2.2]

/-- Witness for C2: only the agent digest differs. -/
theorem compareRefs_single_mismatch_witness :
    ((⟨some "a", some "x", some "c"⟩ : BundleRefs).operator = some "a" ∧
      (⟨some "a", some "x", some "c"⟩ : BundleRefs).agent ≠ some "b" ∧
      (⟨some "a", some "x", some "c"⟩ : BundleRefs).daemon = some "c") ∧
    ((compareRefs ⟨some "a", some "x", some "c"⟩ "a" "b" "c").exitCode = 1 ∧
      (compareRefs ⟨some "a", some "x", some "c"⟩ "a" "b" "c").operatorMatch = true ∧
      (compareRefs ⟨some "a", some "x", some "c"⟩ "a" "b" "c").agentMatch = false ∧
      (compareRefs ⟨some "a", some "x", some "c"⟩ "a" "b" "c").daemonMatch = true) :=
  ⟨⟨by decide, by decide, by decide⟩,
    (compareRefs_single_mismatch ⟨some "a", some "x", some "c"⟩ "a" "b" "c").2.1
      ⟨by decide, by decide, by decide⟩⟩

/-- C4: the extractor is total on manifest texts — each field is exactly
the result of the corresponding pattern search, an unmatched pattern
yielding `none` instead of an error — and a `none` field compared against
the (non-null) snapshot digest is reported as a mismatch, making the
overall result invalid. -/
theorem parseBundleRefs_none_mismatch (csv cm : String) (opSha agSha dmSha : String) :
    (parseBundleRefs csv cm).operator = searchOperator csv ∧
    (parseBundleRefs csv cm).agent = searchAgent cm ∧
    (parseBundleRefs csv cm).daemon = searchDaemon cm ∧
    (searchOperator csv = none →
      (compareRefs (parseBundleRefs csv cm) opSha agSha dmSha).operatorMatch = false ∧
      (compareRefs (parseBundleRefs csv cm) opSha agSha dmSha).exitCode = 1) ∧
    (searchAgent cm = none →
      (compareRefs (parseBundleRefs csv cm) opSha agSha dmSha).agentMatch = false ∧
      (compareRefs (parseBundleRefs csv cm) opSha agSha dmSha).exitCode = 1) ∧
    (searchDaemon cm = none →
      (compareRefs (parseBundleRefs csv cm) opSha agSha dmSha).daemonMatch = false ∧
      (compareRefs (parseBundleRefs csv cm) opSha agSha dmSha).exitCode = 1) := by
  refine ⟨rfl, rfl, rfl, fun h => ?_, fun h => ?_, fun h => ?_⟩ <;>
    simp [compareRefs, parseBundleRefs, h]

/-- Witness for C4: a ConfigMap text with an agent line but no
`bpfman.image:` line — the daemon field is `none` and its comparison is a
mismatch. -/
theorem parseBundleRefs_none_mismatch_witness :
    searchDaemon "bpfman.agent.image: q/a@sha256:22\n" = none ∧
    ((compareRefs (parseBundleRefs "" "bpfman.agent.image: q/a@sha256:22\n")
        "sha256:11" "sha256:22" "sha256:33").daemonMatch = false ∧
      (compareRefs (parseBundleRefs "" "bpfman.agent.image: q/a@sha256:22\n")
        "sha256:11" "sha256:22" "sha256:33").exitCode = 1) :=
  ⟨by decide,
    (parseBundleRefs_none_mismatch "" "bpfman.agent.image: q/a@sha256:22\n"
      "sha256:11" "sha256:22" "sha256:33").2.2.2.2.2 (by decide)⟩

/-- C5: whenever the `podman create` step succeeds with container id
`cid`, `podman rm cid` is in the command trace of `extract_bundle_refs`,
on every exit path — in particular also when the second copy (the
ConfigMap) fails after the first succeeded. -/
theorem extract_bundle_refs_cleanup (w : World) (bundle_sha stream cid : String)
    (h : w.createResult = .ok cid) :
    Cmd.podmanRm cid ∈ (extract_bundle_refs w bundle_sha stream).2 := by
  simp only [extract_bundle_refs, h]
  cases w.cpCsvResult <;> cases w.cpCmResult <;> cases w.rmOk <;> simp

/-- Witness for C5: the ConfigMap copy fails after the CSV copy succeeded;
the removal still appears in the trace. -/
theorem extract_bundle_refs_cleanup_witness :
    (⟨.ok ⟨[]⟩, .ok "cid1", .ok "csv", .error (), true⟩ : World).createResult = .ok "cid1" ∧
    Cmd.podmanRm "cid1" ∈
      (extract_bundle_refs ⟨.ok ⟨[]⟩, .ok "cid1", .ok "csv", .error (), true⟩
        "sha256:99" "ystream").2 :=
  ⟨rfl, extract_bundle_refs_cleanup _ "sha256:99" "ystream" "cid1" rfl⟩

theorem compareRefs_exit_or (refs : BundleRefs) (opSha agSha dmSha : String) :
    (compareRefs refs opSha agSha dmSha).exitCode = 0 ∨
      (compareRefs refs opSha agSha dmSha).exitCode = 1 := by
  simp only [compareRefs]
  split <;> simp

theorem get_components_err_stream (w : World) (n ns : String) (snap : Snapshot)
    (h : w.ocResult = .ok snap) (e : PyError) (hd : detect_stream n = .error e) :
    get_snapshot_components w n ns = (.error e, [Cmd.ocGet ns n]) := by
  simp [get_snapshot_components, h, hd]

theorem get_components_err_build (w : World) (n ns : String) (snap : Snapshot)
    (stream : String) (h1 : w.ocResult = .ok snap) (h2 : detect_stream n = .ok stream)
    (e : PyError) (h3 : buildComponents snap.components = .error e) :
    get_snapshot_components w n ns = (.error e, [Cmd.ocGet ns n]) := by
  simp [get_snapshot_components, h1, h2, h3]

theorem get_components_ok (w : World) (n ns : String) (snap : Snapshot)
    (stream : String) (comps : List (String × String)) (h1 : w.ocResult = .ok snap)
    (h2 : detect_stream n = .ok stream) (h3 : buildComponents snap.components = .ok comps) :
    get_snapshot_components w n ns = (.ok (comps, stream), [Cmd.ocGet ns n]) := by
  simp [get_snapshot_components, h1, h2, h3]

theorem validate_of_components_err (w : World) (n ns : String) (e : PyError)
    (tr : List Cmd) (h : get_snapshot_components w n ns = (.error e, tr)) :
    validate_snapshot w n ns = (.error e, tr) := by
  simp [validate_snapshot, h]

theorem main_of_err (w : World) (n ns : String) (e : PyError) (tr : List Cmd)
    (h : validate_snapshot w n ns = (.error e, tr)) : main w n ns = (2, tr) := by
  simp [main, h]

theorem buildComponents_err {comps : List (String × String)}
    (h : ∃ p ∈ comps, shaOfImage p.2 = none) :
    buildComponents comps = .error .indexError := by
  induction comps with
  | nil => simp at h
  | cons hd tl ih =>
    obtain ⟨n, img⟩ := hd
    obtain ⟨p, hp, hnone⟩ := h
    rcases List.mem_cons.mp hp with rfl | hmem
    · simp only [buildComponents]
      rw [hnone]
    · cases hsha : shaOfImage img with
      | none => simp [buildComponents, hsha]
      | some sha => simp [buildComponents, hsha, ih ⟨p, hmem, hnone⟩]

theorem validate_missing_key (w : World) (n ns : String)
    (comps : List (String × String)) (stream : String) (tr : List Cmd)
    (hg : get_snapshot_components w n ns = (.ok (comps, stream), tr))
    (hnone : dictGet comps ("bpfman-operator-" ++ stream) = none ∨
             dictGet comps ("bpfman-agent-" ++ stream) = none ∨
             dictGet comps ("bpfman-daemon-" ++ stream) = none ∨
             dictGet comps ("bpfman-operator-bundle-" ++ stream) = none) :
    ∃ key, validate_snapshot w n ns = (.error (.keyError key), tr) := by
  rcases hnone with h | h | h | h
  · exact ⟨"bpfman-operator-" ++ stream, by simp [validate_snapshot, hg, h]⟩
  · cases h1 : dictGet comps ("bpfman-operator-" ++ stream) with
    | none => exact ⟨"bpfman-operator-" ++ stream, by simp [validate_snapshot, hg, h1]⟩
    | some v1 => exact ⟨"bpfman-agent-" ++ stream, by simp [validate_snapshot, hg, h1, h]⟩
  · cases h1 : dictGet comps ("bpfman-operator-" ++ stream) with
    | none => exact ⟨"bpfman-operator-" ++ stream, by simp [validate_snapshot, hg, h1]⟩
    | some v1 =>
      cases h2 : dictGet comps ("bpfman-agent-" ++ stream) with
      | none => exact ⟨"bpfman-agent-" ++ stream, by simp [validate_snapshot, hg, h1, h2]⟩
      | some v2 => exact ⟨"bpfman-daemon-" ++ stream, by simp [validate_snapshot, hg, h1, h2, h]⟩
  · cases h1 : dictGet comps ("bpfman-operator-" ++ stream) with
    | none => exact ⟨"bpfman-operator-" ++ stream, by simp [validate_snapshot, hg, h1]⟩
    | some v1 =>
      cases h2 : dictGet comps ("bpfman-agent-" ++ stream) with
      | none => exact ⟨"bpfman-agent-" ++ stream, by simp [validate_snapshot, hg, h1, h2]⟩
      | some v2 =>
        cases h3 : dictGet comps ("bpfman-daemon-" ++ stream) with
        | none => exact ⟨"bpfman-daemon-" ++ stream, by simp [validate_snapshot, hg, h1, h2, h3]⟩
        | some v3 =>
          exact ⟨"bpfman-operator-bundle-" ++ stream,
            by simp [validate_snapshot, hg, h1, h2, h3, h]⟩

theorem validate_ok_exit (w : World) (n ns : String) (r : Report) (tr : List Cmd)
    (h : validate_snapshot w n ns = (.ok r, tr)) : r.exitCode = 0 ∨ r.exitCode = 1 := by
  rcases hg : get_snapshot_components w n ns with ⟨res, tr0⟩
  cases res with
  | error e =>
    rw [validate_of_components_err w n ns e tr0 hg] at h
    simp at h
  | ok pr =>
    obtain ⟨comps, stream⟩ := pr
    cases h1 : dictGet comps ("bpfman-operator-" ++ stream) with
    | none =>
      have hv : validate_snapshot w n ns =
          (.error (.keyError ("bpfman-operator-" ++ stream)), tr0) := by
        simp [validate_snapshot, hg, h1]
      rw [hv] at h
      simp at h
    | some opSha =>
      cases h2 : dictGet comps ("bpfman-agent-" ++ stream) with
      | none =>
        have hv : validate_snapshot w n ns =
            (.error (.keyError ("bpfman-agent-" ++ stream)), tr0) := by
          simp [validate_snapshot, hg, h1, h2]
        rw [hv] at h
        simp at h
      | some agSha =>
        cases h3 : dictGet comps ("bpfman-daemon-" ++ stream) with
        | none =>
          have hv : validate_snapshot w n ns =
              (.error (.keyError ("bpfman-daemon-" ++ stream)), tr0) := by
            simp [validate_snapshot, hg, h1, h2, h3]
          rw [hv] at h
          simp at h
        | some dmSha =>
          cases h4 : dictGet comps ("bpfman-operator-bundle-" ++ stream) with
          | none =>
            have hv : validate_snapshot w n ns =
                (.error (.keyError ("bpfman-operator-bundle-" ++ stream)), tr0) := by
              simp [validate_snapshot, hg, h1, h2, h3, h4]
            rw [hv] at h
            simp at h
          | some bundleSha =>
            rcases he : extract_bundle_refs w bundleSha stream with ⟨eres, tr2⟩
            cases eres with
            | error e =>
              have hv : validate_snapshot w n ns = (.error e, tr0 ++ tr2) := by
                simp [validate_snapshot, hg, h1, h2, h3, h4, he]
              rw [hv] at h
              simp at h
            | ok refs =>
              have hv : validate_snapshot w n ns =
                  (.ok (compareRefs refs opSha agSha dmSha), tr0 ++ tr2) := by
                simp [validate_snapshot, hg, h1, h2, h3, h4, he]
              rw [hv] at h
              have hr : compareRefs refs opSha agSha dmSha = r := by
                have := congrArg Prod.fst h
                simpa using this
              exact hr ▸ compareRefs_exit_or refs opSha agSha dmSha

/-- C3: on every run in which no exception occurs, the process exit code is
the validator's return value, which is always `0` (valid) or `1`
(mismatch); on every run in which a `CalledProcessError` or any other
exception is raised, the exit code is `2` with the error surfaced — so a
validation mismatch is never reported via exit code 2. -/
theorem main_exit_codes (w : World) (snapshot ns : String) :
    (∀ r tr, validate_snapshot w snapshot ns = (.ok r, tr) →
      main w snapshot ns = (r.exitCode, tr) ∧ (r.exitCode = 0 ∨ r.exitCode = 1)) ∧
    (∀ e tr, validate_snapshot w snapshot ns = (.error e, tr) →
      main w snapshot ns = (2, tr)) := by
  constructor
  · intro r tr h
    exact ⟨by simp [main, h], validate_ok_exit w snapshot ns r tr h⟩
  · intro e tr h
    exact main_of_err w snapshot ns e tr h

/-- Witness for C3: the fully successful consistent sample world exits
`0`. -/
theorem main_exit_codes_witness :
    validate_snapshot wSample "snap-ystream-1" "ns" = (.ok ⟨true, true, true, 0⟩, trSample) ∧
    main wSample "snap-ystream-1" "ns" = (0, trSample) :=
  ⟨rfl,
    ((main_exit_codes wSample "snap-ystream-1" "ns").1 ⟨true, true, true, 0⟩ trSample rfl).1⟩

/-- C7 (amended): for every snapshot name lacking both stream markers,
when the cluster query succeeds the undetectable-stream `ValueError` is
raised inside the snapshot read — after the `oc get` cluster query, which
line 30 runs before the stream check of line 33, but before any container
tooling command: the trace of the aborted run is exactly the single
cluster query. -/
theorem validate_no_marker (w : World) (name ns : String) (snap : Snapshot)
    (h1 : pyIn "ystream" name = false) (h2 : pyIn "zstream" name = false)
    (h3 : w.ocResult = .ok snap) :
    validate_snapshot w name ns =
      (.error (.valueError ("Cannot detect stream from snapshot name: " ++ name)),
       [Cmd.ocGet ns name]) := by
  have hd : detect_stream name =
      .error (.valueError ("Cannot detect stream from snapshot name: " ++ name)) := by
    simp [detect_stream, h1, h2]
  exact validate_of_components_err w name ns _ _
    (get_components_err_stream w name ns snap h3 _ hd)

/-- Witness for the amended C7 at the concrete name `"plain-name"`. -/
theorem validate_no_marker_witness :
    (pyIn "ystream" "plain-name" = false ∧ pyIn "zstream" "plain-name" = false ∧
      wSample.ocResult = .ok snapSample) ∧
    validate_snapshot wSample "plain-name" "ns" =
      (.error (.valueError "Cannot detect stream from snapshot name: plain-name"),
       [Cmd.ocGet "ns" "plain-name"]) :=
  ⟨⟨by decide, by decide, rfl⟩,
    validate_no_marker wSample "plain-name" "ns" snapSample (by decide) (by decide) rfl⟩

/-- C7 counterexample: at the no-marker name `"plain-name"` the
undetectable-stream error is indeed raised, yet the run has already
invoked an external command — the `oc get` cluster query of line 30 — so
it does not abort before any external command is invoked. -/
theorem validate_no_marker_counterexample :
    (validate_snapshot wSample "plain-name" "ns").1 =
      .error (.valueError "Cannot detect stream from snapshot name: plain-name") ∧
    (validate_snapshot wSample "plain-name" "ns").2 = [Cmd.ocGet "ns" "plain-name"] ∧
    (validate_snapshot wSample "plain-name" "ns").2 ≠ [] :=
  ⟨rfl, rfl, by decide⟩

/-- C10: if the fetched snapshot has a component whose `containerImage`
contains no `@` (Python `IndexError` on line 38), or lacks one of the
four expected component keys (Python `KeyError` on lines 109-116), the
run terminates with exit code 2 — an unexpected error — and not with the
validation-mismatch exit code 1. -/
theorem main_malformed_snapshot (w : World) (name ns : String) (snap : Snapshot)
    (stream : String) :
    (w.ocResult = .ok snap → (∃ p ∈ snap.components, shaOfImage p.2 = none) →
      (main w name ns).1 = 2 ∧ (main w name ns).1 ≠ 1) ∧
    (w.ocResult = .ok snap → detect_stream name = .ok stream →
      ∀ comps, buildComponents snap.components = .ok comps →
        (dictGet comps ("bpfman-operator-" ++ stream) = none ∨
         dictGet comps ("bpfman-agent-" ++ stream) = none ∨
         dictGet comps ("bpfman-daemon-" ++ stream) = none ∨
         dictGet comps ("bpfman-operator-bundle-" ++ stream) = none) →
      (main w name ns).1 = 2 ∧ (main w name ns).1 ≠ 1) := by
  constructor
  · intro hoc hbad
    have hb := buildComponents_err hbad
    have hmain : (main w name ns).1 = 2 := by
      cases hd : detect_stream name with
      | error e =>
        rw [main_of_err w name ns e [Cmd.ocGet ns name]
          (validate_of_components_err w name ns _ _
            (get_components_err_stream w name ns snap hoc e hd))]
      | ok s =>
        rw [main_of_err w name ns .indexError [Cmd.ocGet ns name]
          (validate_of_components_err w name ns _ _
            (get_components_err_build w name ns snap s hoc hd .indexError hb))]
    exact ⟨hmain, by rw [hmain]; simp⟩
  · intro hoc hdet comps hbc hnone
    have hg := get_components_ok w name ns snap stream comps hoc hdet hbc
    obtain ⟨key, hv⟩ := validate_missing_key w name ns comps stream _ hg hnone
    have hmain : (main w name ns).1 = 2 := by
      rw [main_of_err w name ns _ _ hv]
    exact ⟨hmain, by rw [hmain]; simp⟩

/-- Witness for C10: a component image without `'@'` makes the run exit
`2`. -/
theorem main_malformed_snapshot_witness :
    (wNoAt.ocResult = .ok ⟨[("bpfman-operator-ystream", "no-digest-here")]⟩ ∧
      shaOfImage "no-digest-here" = none) ∧
    ((main wNoAt "snap-ystream-1" "ns").1 = 2 ∧ (main wNoAt "snap-ystream-1" "ns").1 ≠ 1) :=
  ⟨⟨rfl, by decide⟩,
    (main_malformed_snapshot wNoAt "snap-ystream-1" "ns"
        ⟨[("bpfman-operator-ystream", "no-digest-here")]⟩ "ystream").1 rfl
      ⟨("bpfman-operator-ystream", "no-digest-here"), by simp, by decide⟩⟩

end ValidateSnapshot
